import Mathlib

/-!
Verification of the websocket presence/fan-out hub of `src/api/ws/ws.go`
(package `ws`) and of the message persistence handler of `src/unnamed/part_003`
(package `message`, `MessageHandler`).

The hub keeps two pieces of shared state, both guarded by one `sync.Mutex`:
`activeUsers : map[string]*User` (user id -> connection) and
`activeCalls : map[string]string` (channel -> initiating user id).
Each websocket connection runs `handleWebSocket`: a read loop that decodes
envelopes `{type, userId, data}` and dispatches on `type`; when the read
fails the loop breaks and a cleanup block runs.

The embedding below is sequential: each envelope is processed atomically
(the Go code takes the single global mutex around every shared-state
access), connections are identified by a `Nat`, and the outcome of a
`WriteJSON` on a connection is abstracted by a `dead : Nat -> Bool`
parameter (`dead c = true` means a write to connection `c` returns an
error, as a stale handle does).  Every write, close and persistence call
is recorded in an `Output` effect record, in program order per list.
-/

set_option autoImplicit false

namespace GoSocial

/-- The image of Go's `interface{}` as the hub uses it.  `c.ReadJSON`
decodes each frame with `encoding/json` into `map[string]interface{}`;
a JSON array always decodes to `[]interface{}` (constructor `arr`).
The `goStringSlice` constructor stands for an in-process Go `[]string`
value, which JSON decoding never produces; Go's type assertion
`v.([]string)` succeeds only on such a value. -/
inductive JValue where
  | str (s : String)
  | num (n : Int)
  | jbool (b : Bool)
  | null
  | arr (xs : List JValue)
  | obj (fields : List (String × JValue))
  | goStringSlice (xs : List String)

/-- Go type assertion `v.(string)` (two-value form: `ok` is the `isSome`). -/
def JValue.asString : JValue → Option String
  | .str s => some s
  | _ => none

/-- Go type assertion `v.([]string)`.  A JSON-decoded array is an
`[]interface{}` (`arr`), on which this assertion fails. -/
def JValue.asStringSlice : JValue → Option (List String)
  | .goStringSlice xs => some xs
  | _ => none

/-- Go map read `m[k]` on a `map[string]interface{}`: a missing key
yields the zero value of `interface{}` (nil, i.e. JSON `null`). -/
def dataGet (d : List (String × JValue)) (k : String) : JValue :=
  match d.find? (fun p => p.1 == k) with
  | some p => p.2
  | none => JValue.null

/-- Go map lookup with presence bit: `v, ok := m[k]`. -/
def mapGet {α : Type} (l : List (String × α)) (k : String) : Option α :=
  (l.find? (fun p => p.1 == k)).map Prod.snd

/-- Go `delete(m, k)`. -/
def mapErase {α : Type} (l : List (String × α)) (k : String) : List (String × α) :=
  l.filter (fun p => p.1 != k)

/-- Go map write `m[k] = v` (replaces an existing binding, else adds one). -/
def mapSet {α : Type} (l : List (String × α)) (k : String) (v : α) : List (String × α) :=
  if l.any (fun p => p.1 == k) then
    l.map (fun p => if p.1 == k then (k, v) else p)
  else
    l ++ [(k, v)]

/-- `type User struct { UserID string; Conn *websocket.Conn }` (ws.go:29).
The connection pointer is abstracted to a numeric connection id. -/
structure User where
  userID : String
  conn : Nat

/-- The hub's shared mutable state (ws.go:34-38): `activeUsers` maps a user
id to its registered connection; `activeCalls` maps a call channel to the
user id that initiated the call. -/
structure HubState where
  activeUsers : List (String × User)
  activeCalls : List (String × String)

/-- One successful `WriteJSON(payload)` on connection `conn`. -/
structure Event where
  conn : Nat
  payload : JValue

/-- A call to the external storage collaborator persisting a relayed chat
message keyed by chatId/senderId/text.  The `ws` package imports no
storage collaborator, so no code path in `ws.go` ever records one; the
field exists so that their absence is expressible. -/
structure PersistCall where
  chatId : JValue
  senderId : JValue
  text : JValue

/-- Observable effects of a code path, each list in program order:
successful connection writes, connection closes, persistence calls. -/
structure Output where
  events : List Event
  closed : List Nat
  persist : List PersistCall

def Output.empty : Output := ⟨[], [], []⟩

def Output.append (a b : Output) : Output :=
  ⟨a.events ++ b.events, a.closed ++ b.closed, a.persist ++ b.persist⟩

/-- Embeds `sendToUser` (ws.go:556-571): look the target up in
`activeUsers`; if absent, log only; if present, `WriteJSON` — and on a
write error close the target's connection and delete the target's entry. -/
def sendToUser (dead : Nat → Bool) (st : HubState) (userId : String)
    (payload : JValue) : HubState × Output :=
  match mapGet st.activeUsers userId with
  | some user =>
      if dead user.conn then
        (⟨mapErase st.activeUsers userId, st.activeCalls⟩, ⟨[], [user.conn], []⟩)
      else
        (st, ⟨[⟨user.conn, payload⟩], [], []⟩)
  | none => (st, Output.empty)

/-- The presence event `{"type": "get-users", "data": userIds}`
written by `broadcastActiveUsers` (ws.go:543-546); `userIds` is a Go
`[]string`. -/
def getUsersPayload (userIds : List String) : JValue :=
  .obj [("type", .str "get-users"), ("data", .goStringSlice userIds)]

/-- One iteration of the send loop of `broadcastActiveUsers`
(ws.go:542-553): write the snapshot of ids to the user's connection; on a
write error close that connection and delete that user's entry. -/
def broadcastStep (dead : Nat → Bool) (userIds : List String)
    (acc : HubState × Output) (p : String × User) : HubState × Output :=
  if dead p.2.conn then
    (⟨mapErase acc.1.activeUsers p.2.userID, acc.1.activeCalls⟩,
     ⟨acc.2.events, acc.2.closed ++ [p.2.conn], acc.2.persist⟩)
  else
    (acc.1,
     ⟨acc.2.events ++ [⟨p.2.conn, getUsersPayload userIds⟩], acc.2.closed, acc.2.persist⟩)

/-- Embeds `broadcastActiveUsers` (ws.go:533-554): snapshot the current
id set under the lock, then send it to every registered connection. -/
def broadcastActiveUsers (dead : Nat → Bool) (st : HubState) : HubState × Output :=
  let userIds := st.activeUsers.map Prod.fst
  st.activeUsers.foldl (broadcastStep dead userIds) (st, Output.empty)

/-- Embeds the disconnect cleanup at the end of `handleWebSocket`
(ws.go:443-462).  The cleanup acquires `mutex` (ws.go:444) and, while
still holding it, calls `broadcastToChannel` (ws.go:450) for every
`activeCalls` entry whose initiator is the disconnecting id; but
`broadcastToChannel` itself begins with `mutex.Lock()` (ws.go:513) on the
same non-reentrant `sync.Mutex`, so the first matching entry makes the
goroutine block forever — no event is ever delivered and the mutex is
never released.  That divergence is modelled as `none`.  With no matching
entry the cleanup deletes the user's registry entry, releases the lock,
runs `broadcastActiveUsers`, and closes its own connection `conn`. -/
def cleanup (dead : Nat → Bool) (conn : Nat) (st : HubState) (userId : String) :
    Option (HubState × Output) :=
  if st.activeCalls.any (fun q => q.2 == userId) then
    none
  else
    let st1 : HubState := ⟨mapErase st.activeUsers userId, st.activeCalls⟩
    let r := broadcastActiveUsers dead st1
    some (r.1, ⟨r.2.events, r.2.closed ++ [conn], r.2.persist⟩)

/-- The decoded inbound envelope (ws.go:189-193):
`{ Type string; UserId string; Data map[string]interface{} }`. -/
structure InMsg where
  type : String
  userId : String
  data : List (String × JValue)

/-- The `"receive-message"` payload built by the `send-message` case
(ws.go:227-235), pulling the four fields out of the inbound data. -/
def receiveMessagePayload (d : List (String × JValue)) : JValue :=
  .obj [("type", .str "receive-message"),
        ("data", .obj [("chatId", dataGet d "chatId"),
                       ("senderId", dataGet d "senderId"),
                       ("text", dataGet d "text"),
                       ("createdAt", dataGet d "createdAt")])]

def newCommentPayload (comment : JValue) : JValue :=
  .obj [("type", .str "new-comment"), ("data", comment)]

def newReplyPayload (comment : JValue) : JValue :=
  .obj [("type", .str "new-reply"), ("data", comment)]

/-- Case `"new-user-add"` (ws.go:207-218): if the id already has a live
entry, log and `continue` (no write, no close, no registry change);
otherwise insert the entry and broadcast the updated presence set. -/
def handleNewUserAdd (dead : Nat → Bool) (conn : Nat) (st : HubState)
    (uid : String) : HubState × Output :=
  match mapGet st.activeUsers uid with
  | some _ => (st, Output.empty)
  | none =>
      let st1 : HubState := ⟨mapSet st.activeUsers uid ⟨uid, conn⟩, st.activeCalls⟩
      broadcastActiveUsers dead st1

/-- Case `"send-message"` (ws.go:220-235): assert `receiverId` is a
string (else drop the envelope) and relay the four original fields to the
receiver as `"receive-message"`.  No persistence call occurs: the `ws`
package has no storage collaborator. -/
def handleSendMessage (dead : Nat → Bool) (st : HubState)
    (d : List (String × JValue)) : HubState × Output :=
  match (dataGet d "receiverId").asString with
  | none => (st, Output.empty)
  | some receiverId => sendToUser dead st receiverId (receiveMessagePayload d)

/-- Case `"notification"` (ws.go:237-247). -/
def handleNotification (dead : Nat → Bool) (st : HubState)
    (d : List (String × JValue)) : HubState × Output :=
  match (dataGet d "receiverId").asString with
  | none => (st, Output.empty)
  | some receiverId =>
      sendToUser dead st receiverId (.obj [("type", .str "notification"), ("data", .obj d)])

/-- Case `"post-created"` (ws.go:249-261): the Go code asserts
`msg.Data["followers"].([]string)` and drops the envelope when the
assertion fails; when it succeeds it sends `"new-post"` to each listed
follower in order. -/
def handlePostCreated (dead : Nat → Bool) (st : HubState)
    (d : List (String × JValue)) : HubState × Output :=
  match (dataGet d "followers").asStringSlice with
  | none => (st, Output.empty)
  | some followers =>
      followers.foldl
        (fun acc followerId =>
          let r := sendToUser dead acc.1 followerId
            (.obj [("type", .str "new-post"), ("data", dataGet d "post")])
          (r.1, acc.2.append r.2))
        (st, Output.empty)

/-- Case `"post-reaction"` (ws.go:263-273). -/
def handlePostReaction (dead : Nat → Bool) (st : HubState)
    (d : List (String × JValue)) : HubState × Output :=
  match (dataGet d "postOwner").asString with
  | none => (st, Output.empty)
  | some postOwner =>
      sendToUser dead st postOwner
        (.obj [("type", .str "post-reaction-update"), ("data", .obj d)])

/-- Case `"comment-added"` (ws.go:275-293): send `"new-comment"` to
`postOwner`; then, if `parentOwner` asserts as a string and is nonempty,
also send `"new-reply"` — there is no check that `parentOwner` differs
from `postOwner`. -/
def handleCommentAdded (dead : Nat → Bool) (st : HubState)
    (d : List (String × JValue)) : HubState × Output :=
  match (dataGet d "postOwner").asString with
  | none => (st, Output.empty)
  | some postOwner =>
      let r1 := sendToUser dead st postOwner (newCommentPayload (dataGet d "comment"))
      match (dataGet d "parentOwner").asString with
      | some parentOwner =>
          if parentOwner != "" then
            let r2 := sendToUser dead r1.1 parentOwner (newReplyPayload (dataGet d "comment"))
            (r2.1, r1.2.append r2.2)
          else
            (r1.1, r1.2)
      | none => (r1.1, r1.2)

/-- Case `"comment-reaction"` (ws.go:295-305). -/
def handleCommentReaction (dead : Nat → Bool) (st : HubState)
    (d : List (String × JValue)) : HubState × Output :=
  match (dataGet d "commentOwner").asString with
  | none => (st, Output.empty)
  | some commentOwner =>
      sendToUser dead st commentOwner
        (.obj [("type", .str "comment-reaction-update"), ("data", .obj d)])

/-- Case `"story-created"` (ws.go:307-319): same `([]string)` assertion
as `"post-created"`. -/
def handleStoryCreated (dead : Nat → Bool) (st : HubState)
    (d : List (String × JValue)) : HubState × Output :=
  match (dataGet d "followers").asStringSlice with
  | none => (st, Output.empty)
  | some followers =>
      followers.foldl
        (fun acc followerId =>
          let r := sendToUser dead acc.1 followerId
            (.obj [("type", .str "new-story"), ("data", dataGet d "story")])
          (r.1, acc.2.append r.2))
        (st, Output.empty)

/-- Case `"agora-signal"` (ws.go:321-438): require string `action` and
nonempty string `targetId`; `call-request` records the channel's
initiator in `activeCalls`, `call-rejected`/`call-ended` delete it, and
every action forwards a signal to `targetId`.  The goroutine spawned on
`call-accepted` (`InitiateBidirectionalCall`, Agora token generation and
delivery over the network) is external asynchronous I/O and is not
modelled. -/
def handleAgoraSignal (dead : Nat → Bool) (st : HubState) (sender : String)
    (d : List (String × JValue)) : HubState × Output :=
  match (dataGet d "action").asString with
  | none => (st, Output.empty)
  | some action =>
      match (dataGet d "targetId").asString with
      | none => (st, Output.empty)
      | some targetId =>
          if targetId == "" then (st, Output.empty)
          else
            let channel := ((dataGet d "channel").asString).getD ""
            if action == "call-request" then
              let st1 : HubState :=
                if channel != "" then ⟨st.activeUsers, mapSet st.activeCalls channel sender⟩
                else st
              sendToUser dead st1 targetId
                (.obj [("type", .str "agora-signal"), ("userId", .str sender),
                       ("data", .obj [("action", .str "call-request"),
                                      ("channel", .str channel),
                                      ("callerId", .str sender),
                                      ("targetId", .str targetId),
                                      ("callType", dataGet d "callType")])])
            else if action == "call-accepted" then
              sendToUser dead st targetId
                (.obj [("type", .str "agora-signal"), ("userId", .str sender),
                       ("data", .obj [("action", .str "call-accepted"),
                                      ("channel", .str channel),
                                      ("calleeId", .str sender),
                                      ("callerId", .str targetId)])])
            else if action == "call-rejected" then
              let st1 : HubState :=
                if channel != "" then ⟨st.activeUsers, mapErase st.activeCalls channel⟩
                else st
              sendToUser dead st1 targetId
                (.obj [("type", .str "agora-signal"), ("userId", .str sender),
                       ("data", .obj [("action", .str "call-rejected"),
                                      ("channel", .str channel),
                                      ("calleeId", .str sender)])])
            else if action == "call-ended" then
              let st1 : HubState :=
                if channel != "" then ⟨st.activeUsers, mapErase st.activeCalls channel⟩
                else st
              sendToUser dead st1 targetId
                (.obj [("type", .str "agora-signal"), ("userId", .str sender),
                       ("data", .obj [("action", .str "call-ended"),
                                      ("channel", .str channel),
                                      ("endedBy", .str sender)])])
            else
              sendToUser dead st targetId
                (.obj [("type", .str "agora-signal"), ("userId", .str sender),
                       ("data", .obj d)])

/-- Embeds one iteration of the dispatch switch of `handleWebSocket`
(ws.go:206-440) for an envelope that was successfully read.  `userId` is
the handler's local `userId` variable; the `"new-user-add"` case assigns
`msg.UserId` to it before checking for an existing entry (ws.go:208), in
every other case it is left unchanged.  A tag outside the switch does
nothing. -/
def handleEnvelope (dead : Nat → Bool) (conn : Nat) (st : HubState)
    (userId : String) (msg : InMsg) : HubState × String × Output :=
  match msg.type with
  | "new-user-add" =>
      let r := handleNewUserAdd dead conn st msg.userId
      (r.1, msg.userId, r.2)
  | "send-message" =>
      let r := handleSendMessage dead st msg.data
      (r.1, userId, r.2)
  | "notification" =>
      let r := handleNotification dead st msg.data
      (r.1, userId, r.2)
  | "post-created" =>
      let r := handlePostCreated dead st msg.data
      (r.1, userId, r.2)
  | "post-reaction" =>
      let r := handlePostReaction dead st msg.data
      (r.1, userId, r.2)
  | "comment-added" =>
      let r := handleCommentAdded dead st msg.data
      (r.1, userId, r.2)
  | "comment-reaction" =>
      let r := handleCommentReaction dead st msg.data
      (r.1, userId, r.2)
  | "story-created" =>
      let r := handleStoryCreated dead st msg.data
      (r.1, userId, r.2)
  | "agora-signal" =>
      let r := handleAgoraSignal dead st msg.userId msg.data
      (r.1, userId, r.2)
  | _ => (st, userId, Output.empty)

end GoSocial

namespace GoSocial.Message

/-- `MessageRequest` (part_003:17-21). -/
structure MessageRequest where
  chatId : String
  senderId : String
  text : String

/-- Effects of the `message` package handlers, in program order: a
`h.db.Create` of the message, a `h.redisClient.Publish` of the message on
a chat channel, a `c.WriteJSON` back to the requesting client, and the
`Publish` of the active-user set on the `users` channel. -/
inductive Effect where
  | dbCreate (m : MessageRequest)
  | publish (channel : String) (m : MessageRequest)
  | writeSender (payload : JValue)
  | publishUsers

/-- Embeds one iteration of the read loop of
`MessageHandler.HandleWebSocket` (part_003:125-145).  `read = none` is a
`ReadJSON` error: deregister, publish the user set, and `break` (second
component `false`).  Otherwise `db.Create` runs first; if it fails the
error is written back to the sender, nothing is published, and the loop
`continue`s; if it succeeds the message is published on `chat:<chatId>`
and the loop continues. -/
def wsLoopIter (read : Option MessageRequest) (createOk : Bool) :
    List Effect × Bool :=
  match read with
  | none => ([Effect.publishUsers], false)
  | some req =>
      if createOk then
        ([Effect.dbCreate req, Effect.publish ("chat:" ++ req.chatId) req], true)
      else
        ([Effect.dbCreate req,
          Effect.writeSender (.obj [("message", .str "Failed to save message")])], true)

/-- HTTP responses of `MessageHandler.AddMessage` (part_003:42-80). -/
inductive RestResult where
  | badRequest (msg : String)
  | notFound (msg : String)
  | serverError (msg : String)
  | ok

/-- Embeds `MessageHandler.AddMessage` (part_003:42-80), with the DB
collaborator's answers abstracted as booleans (the two `uuid.Parse`
checks, the chat and sender existence reads, and the `Create`); `errMsg`
is the `Create` error's text.  The `Create` runs before the `Publish`;
a failed `Create` returns 500 to the caller and publishes nothing. -/
def AddMessage (chatIdValid senderIdValid chatExists senderExists createOk : Bool)
    (errMsg : String) (req : MessageRequest) : RestResult × List Effect :=
  if chatIdValid = false then (RestResult.badRequest "Invalid chatId format", [])
  else if senderIdValid = false then (RestResult.badRequest "Invalid senderId format", [])
  else if chatExists = false then (RestResult.notFound "Chat not found", [])
  else if senderExists = false then (RestResult.notFound "Sender not found", [])
  else if createOk = false then (RestResult.serverError errMsg, [Effect.dbCreate req])
  else (RestResult.ok, [Effect.dbCreate req, Effect.publish ("chat:" ++ req.chatId) req])

end GoSocial.Message

namespace GoSocial

/-! Scenario constants used by concrete theorems. -/

/-- `send-message` data of the C2 scenario: alice relays to bob. -/
def sampleSendData : List (String × JValue) :=
  [("receiverId", .str "bob"), ("chatId", .str "c1"), ("senderId", .str "alice"),
   ("text", .str "hi"), ("createdAt", .str "t0")]

/-- A two-user registry: alice on connection 1, bob on connection 2. -/
def sampleReg : List (String × User) :=
  [("alice", ⟨"alice", 1⟩), ("bob", ⟨"bob", 2⟩)]

/-- A one-user registry: alice on connection 1. -/
def soloReg : List (String × User) :=
  [("alice", ⟨"alice", 1⟩)]

/-- `comment-added` data with distinct postOwner and parentOwner. -/
def sampleCommentData : List (String × JValue) :=
  [("postOwner", .str "alice"), ("comment", .str "c"), ("parentOwner", .str "bob")]

/-- C10 trace, step 0: carol is registered on connection 3. -/
def ghostState0 : HubState := ⟨[("carol", ⟨"carol", 3⟩)], []⟩

/-- C10 trace, step 1: connection 1 registers "alice". -/
def ghostAfterA : HubState × String × Output :=
  handleEnvelope (fun _ => false) 1 ghostState0 "" ⟨"new-user-add", "alice", []⟩

/-- C10 trace, step 2: connection 2 also sends `new-user-add` for "alice";
the insert is skipped but its local `userId` is now "alice". -/
def ghostAfterB : HubState × String × Output :=
  handleEnvelope (fun _ => false) 2 ghostAfterA.1 "" ⟨"new-user-add", "alice", []⟩

/-! Helper lemmas. -/

theorem mapGet_cons {α : Type} (p : String × α) (t : List (String × α)) (v : String) :
    mapGet (p :: t) v = if p.1 = v then some p.2 else mapGet t v := by
  by_cases h : p.1 = v
  · simp [mapGet, List.find?_cons, h]
  · have hb : (p.1 == v) = false := beq_eq_false_iff_ne.mpr h
    simp [mapGet, List.find?_cons, hb, h]

theorem mapErase_cons {α : Type} (p : String × α) (t : List (String × α)) (k : String) :
    mapErase (p :: t) k = if p.1 = k then mapErase t k else p :: mapErase t k := by
  simp only [mapErase, List.filter_cons]
  by_cases h : p.1 = k <;> simp [h]

theorem mapGet_mapErase {α : Type} (l : List (String × α)) (k v : String) :
    mapGet (mapErase l k) v = if v = k then none else mapGet l v := by
  induction l with
  | nil => simp [mapGet, mapErase]
  | cons p t ih =>
      rw [mapErase_cons]
      by_cases hpk : p.1 = k
      · rw [if_pos hpk, ih, mapGet_cons]
        by_cases hv : v = k
        · simp [hv]
        · have hpv : ¬p.1 = v := fun hc => hv (hc.symm.trans hpk)
          simp [hv, hpv]
      · rw [if_neg hpk, mapGet_cons, mapGet_cons, ih]
        by_cases hpv : p.1 = v
        · have hvk : ¬v = k := fun hc => hpk (hpv.trans hc)
          simp [hpv, hvk]
        · simp [hpv]

theorem mapErase_idem {α : Type} (l : List (String × α)) (k : String) :
    mapErase (mapErase l k) k = mapErase l k := by
  simp [mapErase, List.filter_filter]

theorem sendToUser_persist_nil (dead : Nat → Bool) (st : HubState) (u : String)
    (p : JValue) : (sendToUser dead st u p).2.persist = [] := by
  unfold sendToUser
  cases mapGet st.activeUsers u with
  | none => rfl
  | some user =>
      by_cases h : dead user.conn = true <;> simp [h, Output.empty]

theorem foldl_broadcastStep_live (ids : List String) (l : List (String × User))
    (st : HubState) (out : Output) :
    l.foldl (broadcastStep (fun _ => false) ids) (st, out)
      = (st, ⟨out.events ++ l.map (fun p => ⟨p.2.conn, getUsersPayload ids⟩),
              out.closed, out.persist⟩) := by
  induction l generalizing out with
  | nil => simp
  | cons p t ih => simp [broadcastStep, ih]

theorem broadcastActiveUsers_live (st : HubState) :
    broadcastActiveUsers (fun _ => false) st
      = (st, ⟨st.activeUsers.map
                (fun p => ⟨p.2.conn, getUsersPayload (st.activeUsers.map Prod.fst)⟩),
              [], []⟩) := by
  simp [broadcastActiveUsers, foldl_broadcastStep_live, Output.empty]

/-! Claim theorems. -/

/-- C1 counterexample: with "alice" registered on connection 1, a second
connection (2) sending `new-user-add` for "alice" is neither closed nor
sent any rejection event — the envelope is silently skipped — so the
claim's "the second connection is closed or receives an explicit
rejection" is false at this input (the registry part does hold). -/
theorem duplicate_register_no_rejection_cex :
    (handleEnvelope (fun _ => false) 2 ⟨[("alice", ⟨"alice", 1⟩)], []⟩ ""
        ⟨"new-user-add", "alice", []⟩).2.2.events = []
    ∧ (handleEnvelope (fun _ => false) 2 ⟨[("alice", ⟨"alice", 1⟩)], []⟩ ""
        ⟨"new-user-add", "alice", []⟩).2.2.closed = []
    ∧ (handleEnvelope (fun _ => false) 2 ⟨[("alice", ⟨"alice", 1⟩)], []⟩ ""
        ⟨"new-user-add", "alice", []⟩).1.activeUsers = [("alice", ⟨"alice", 1⟩)] :=
  ⟨rfl, rfl, rfl⟩

/-- C1 (amended): a `new-user-add` envelope for an identity that already
has a live Registry entry is silently ignored — the hub state is left
exactly as it was (so the first connection's handle is never
overwritten), no event is written to any connection, and no connection is
closed; the handler merely assigns the duplicate identity to its local
`userId` variable and continues. -/
theorem duplicate_register_ignored_entry_kept (dead : Nat → Bool) (conn : Nat)
    (st : HubState) (localId u : String) (d : List (String × JValue)) (w : User)
    (h : mapGet st.activeUsers u = some w) :
    handleEnvelope dead conn st localId ⟨"new-user-add", u, d⟩ = (st, u, Output.empty) := by
  show ((handleNewUserAdd dead conn st u).1, u, (handleNewUserAdd dead conn st u).2)
      = (st, u, Output.empty)
  unfold handleNewUserAdd
  rw [h]

/-- C1 witness: the amended theorem at the concrete duplicate input. -/
theorem duplicate_register_ignored_entry_kept_witness :
    handleEnvelope (fun _ => false) 2 ⟨[("alice", ⟨"alice", 1⟩)], []⟩ ""
        ⟨"new-user-add", "alice", []⟩
      = (⟨[("alice", ⟨"alice", 1⟩)], []⟩, "alice", Output.empty) :=
  duplicate_register_ignored_entry_kept (fun _ => false) 2
    ⟨[("alice", ⟨"alice", 1⟩)], []⟩ "" "alice" [] ⟨"alice", 1⟩ rfl

/-- C3: when the connection of "alice" (who initiated the active call on
channel "ch1") terminates, the cleanup block self-deadlocks: it calls
`broadcastToChannel` — which starts by locking the hub mutex — while
already holding that mutex, so neither the synthetic peer notification
nor the presence broadcast is ever delivered (and every later hub
operation blocks).  The modelled cleanup diverges (`none`). -/
theorem disconnect_with_active_call_deadlocks :
    cleanup (fun _ => false) 1
        ⟨[("alice", ⟨"alice", 1⟩), ("bob", ⟨"bob", 2⟩)], [("ch1", "alice")]⟩ "alice"
      = none := rfl

/-- C4: a `post-created` envelope whose `followers` field is a
JSON-decoded array (which `encoding/json` always delivers as
`[]interface{}`, never `[]string`) fails the Go type assertion
`msg.Data["followers"].([]string)` and is dropped: no follower receives
anything and the state is unchanged, for any registry contents. -/
theorem post_created_followers_assertion_always_fails (dead : Nat → Bool) (conn : Nat)
    (st : HubState) (localId sender : String) (d : List (String × JValue))
    (l : List JValue) (h : dataGet d "followers" = JValue.arr l) :
    handleEnvelope dead conn st localId ⟨"post-created", sender, d⟩
      = (st, localId, Output.empty) := by
  show ((handlePostCreated dead st d).1, localId, (handlePostCreated dead st d).2)
      = (st, localId, Output.empty)
  unfold handlePostCreated
  rw [h]
  rfl

/-- C4 witness: with "bob" registered and online, the envelope
`{type: post-created, data: {followers: ["bob"], post: {}}}` (as decoded
from JSON) delivers nothing to bob. -/
theorem post_created_followers_assertion_always_fails_witness :
    handleEnvelope (fun _ => false) 1 ⟨[("bob", ⟨"bob", 2⟩)], []⟩ "alice"
        ⟨"post-created", "alice", [("followers", .arr [.str "bob"]), ("post", .obj [])]⟩
      = (⟨[("bob", ⟨"bob", 2⟩)], []⟩, "alice", Output.empty) :=
  post_created_followers_assertion_always_fails (fun _ => false) 1
    ⟨[("bob", ⟨"bob", 2⟩)], []⟩ "alice" "alice"
    [("followers", .arr [.str "bob"]), ("post", .obj [])] [.str "bob"] rfl

/-- C7: a directed delivery to an identity with no Registry entry is a
complete no-op — state unchanged, nothing delivered, nothing closed, no
error raised (the function returns normally). -/
theorem send_to_offline_user_noop (dead : Nat → Bool) (st : HubState)
    (u : String) (payload : JValue) (h : mapGet st.activeUsers u = none) :
    sendToUser dead st u payload = (st, Output.empty) := by
  unfold sendToUser
  rw [h]

/-- C7 witness. -/
theorem send_to_offline_user_noop_witness :
    sendToUser (fun _ => false) ⟨[("alice", ⟨"alice", 1⟩)], []⟩ "carol" JValue.null
      = (⟨[("alice", ⟨"alice", 1⟩)], []⟩, Output.empty) :=
  send_to_offline_user_noop (fun _ => false) ⟨[("alice", ⟨"alice", 1⟩)], []⟩
    "carol" JValue.null rfl

/-- C8: a directed delivery to a registered target whose connection write
fails closes exactly the target's connection and deletes exactly the
target's entry (every other identity's lookup is unchanged), delivers
nothing, raises nothing to the caller, and a repeated removal of the same
identity is a no-op. -/
theorem send_to_dead_conn_removes_target_only (dead : Nat → Bool) (st : HubState)
    (u : String) (payload : JValue) (w : User)
    (h : mapGet st.activeUsers u = some w) (hd : dead w.conn = true) :
    sendToUser dead st u payload
      = (⟨mapErase st.activeUsers u, st.activeCalls⟩, ⟨[], [w.conn], []⟩)
    ∧ (∀ v, v ≠ u → mapGet (mapErase st.activeUsers u) v = mapGet st.activeUsers v)
    ∧ mapErase (mapErase st.activeUsers u) u = mapErase st.activeUsers u := by
  refine ⟨?_, ?_, mapErase_idem st.activeUsers u⟩
  · unfold sendToUser
    rw [h]
    simp [hd]
  · intro v hv
    rw [mapGet_mapErase]
    simp [hv]

/-- C8 witness: "bob" is registered on connection 2, which is dead. -/
theorem send_to_dead_conn_removes_target_only_witness :
    sendToUser (fun c => c == 2) ⟨sampleReg, []⟩ "bob" JValue.null
      = (⟨mapErase sampleReg "bob", []⟩, ⟨[], [2], []⟩)
    ∧ (∀ v, v ≠ "bob" → mapGet (mapErase sampleReg "bob") v = mapGet sampleReg v)
    ∧ mapErase (mapErase sampleReg "bob") "bob" = mapErase sampleReg "bob" :=
  send_to_dead_conn_removes_target_only (fun c => c == 2)
    ⟨sampleReg, []⟩ "bob" JValue.null ⟨"bob", 2⟩ rfl rfl

/-- C2 counterexample: the hub's own `send-message` case relays to the
receiver (connection 2 gets the `receive-message` event) while making no
persistence call whatsoever — `ws.go` has no storage collaborator — so
"the hub performs the external persistence write before relaying" is
false at this input. -/
theorem hub_send_message_relays_without_persist_cex :
    (handleEnvelope (fun _ => false) 1 ⟨sampleReg, []⟩ "alice"
        ⟨"send-message", "alice", sampleSendData⟩).2.2.events
      = [⟨2, receiveMessagePayload sampleSendData⟩]
    ∧ (handleEnvelope (fun _ => false) 1 ⟨sampleReg, []⟩ "alice"
        ⟨"send-message", "alice", sampleSendData⟩).2.2.persist = [] :=
  ⟨rfl, rfl⟩

/-- C2 (amended): the hub's `send-message` case performs no persistence
call on any input; the persist-before-relay behaviour lives in the
separate `message` package: in `MessageHandler.HandleWebSocket`'s read
loop the `db.Create` precedes the publish, and when it fails nothing is
published, the error is written back to the sender, and the loop
continues (the connection stays open); `MessageHandler.AddMessage`
likewise creates before publishing and answers the sender with a 500 and
no publish when the create fails. -/
theorem message_persisted_before_relay :
    (∀ (dead : Nat → Bool) (st : HubState) (d : List (String × JValue)),
        (handleSendMessage dead st d).2.persist = [])
    ∧ (∀ req : Message.MessageRequest,
        Message.wsLoopIter (some req) false
          = ([Message.Effect.dbCreate req,
              Message.Effect.writeSender (.obj [("message", .str "Failed to save message")])],
             true))
    ∧ (∀ req : Message.MessageRequest,
        Message.wsLoopIter (some req) true
          = ([Message.Effect.dbCreate req,
              Message.Effect.publish ("chat:" ++ req.chatId) req],
             true))
    ∧ (∀ (errMsg : String) (req : Message.MessageRequest),
        Message.AddMessage true true true true false errMsg req
          = (Message.RestResult.serverError errMsg, [Message.Effect.dbCreate req]))
    ∧ (∀ (errMsg : String) (req : Message.MessageRequest),
        Message.AddMessage true true true true true errMsg req
          = (Message.RestResult.ok,
             [Message.Effect.dbCreate req,
              Message.Effect.publish ("chat:" ++ req.chatId) req])) := by
  refine ⟨?_, fun req => rfl, fun req => rfl, fun errMsg req => rfl, fun errMsg req => rfl⟩
  intro dead st d
  unfold handleSendMessage
  cases (dataGet d "receiverId").asString with
  | none => rfl
  | some r => exact sendToUser_persist_nil dead st r (receiveMessagePayload d)

/-- C5 counterexample: carol (connection 3) initiated the active call on
channel "ch2" and disconnects while dave (connection 4) is registered —
a Registry membership change after which the cleanup self-deadlocks
before `broadcastActiveUsers`, so dave never receives any `get-users`
event (the modelled cleanup diverges). -/
theorem presence_broadcast_missed_on_initiator_disconnect_cex :
    cleanup (fun _ => false) 3
        ⟨[("carol", ⟨"carol", 3⟩), ("dave", ⟨"dave", 4⟩)], [("ch2", "carol")]⟩ "carol"
      = none := rfl

/-- C5 (amended): after every successful registration, and after every
disconnect of an identity that initiated no active call, every connection
registered at broadcast time receives a `get-users` event carrying the
full current identity set (the complete key list of the Registry, not a
delta). -/
theorem presence_broadcast_full_set (st : HubState) (conn conn2 : Nat)
    (localId u w : String) (d : List (String × JValue))
    (hnew : mapGet st.activeUsers u = none)
    (hnocall : st.activeCalls.any (fun q => q.2 == w) = false) :
    ((handleEnvelope (fun _ => false) conn st localId ⟨"new-user-add", u, d⟩).1.activeUsers
        = mapSet st.activeUsers u ⟨u, conn⟩
      ∧ ∀ p ∈ (handleEnvelope (fun _ => false) conn st localId ⟨"new-user-add", u, d⟩).1.activeUsers,
          (⟨p.2.conn, getUsersPayload ((mapSet st.activeUsers u ⟨u, conn⟩).map Prod.fst)⟩ : Event)
            ∈ (handleEnvelope (fun _ => false) conn st localId ⟨"new-user-add", u, d⟩).2.2.events)
    ∧ (∃ st' out, cleanup (fun _ => false) conn2 st w = some (st', out)
        ∧ st'.activeUsers = mapErase st.activeUsers w
        ∧ ∀ p ∈ st'.activeUsers,
            (⟨p.2.conn, getUsersPayload (st'.activeUsers.map Prod.fst)⟩ : Event) ∈ out.events) := by
  have hreg : handleEnvelope (fun _ => false) conn st localId ⟨"new-user-add", u, d⟩
      = (⟨mapSet st.activeUsers u ⟨u, conn⟩, st.activeCalls⟩, u,
         ⟨(mapSet st.activeUsers u ⟨u, conn⟩).map
            (fun p => ⟨p.2.conn,
                       getUsersPayload ((mapSet st.activeUsers u ⟨u, conn⟩).map Prod.fst)⟩),
          [], []⟩) := by
    show ((handleNewUserAdd (fun _ => false) conn st u).1, u,
          (handleNewUserAdd (fun _ => false) conn st u).2) = _
    unfold handleNewUserAdd
    rw [hnew]
    simp only [broadcastActiveUsers_live]
  refine ⟨⟨?_, ?_⟩, ?_⟩
  · rw [hreg]
  · rw [hreg]
    intro p hp
    exact List.mem_map_of_mem _ hp
  · refine ⟨⟨mapErase st.activeUsers w, st.activeCalls⟩,
      ⟨(mapErase st.activeUsers w).map
         (fun p => ⟨p.2.conn, getUsersPayload ((mapErase st.activeUsers w).map Prod.fst)⟩),
       [conn2], []⟩, ?_, rfl, ?_⟩
    · simp [cleanup, hnocall, broadcastActiveUsers_live]
    · intro p hp
      exact List.mem_map_of_mem _ hp

/-- C5 witness: alice alone online on connection 1; bob registers on
connection 2, and separately alice disconnects with no active call. -/
theorem presence_broadcast_full_set_witness :
    ((handleEnvelope (fun _ => false) 2 ⟨soloReg, []⟩ ""
          ⟨"new-user-add", "bob", []⟩).1.activeUsers
        = mapSet soloReg "bob" ⟨"bob", 2⟩
      ∧ ∀ p ∈ (handleEnvelope (fun _ => false) 2 ⟨soloReg, []⟩ ""
                  ⟨"new-user-add", "bob", []⟩).1.activeUsers,
          (⟨p.2.conn,
            getUsersPayload ((mapSet soloReg "bob" ⟨"bob", 2⟩).map Prod.fst)⟩ : Event)
            ∈ (handleEnvelope (fun _ => false) 2 ⟨soloReg, []⟩ ""
                  ⟨"new-user-add", "bob", []⟩).2.2.events)
    ∧ (∃ st' out, cleanup (fun _ => false) 1 ⟨soloReg, []⟩ "alice"
          = some (st', out)
        ∧ st'.activeUsers = mapErase soloReg "alice"
        ∧ ∀ p ∈ st'.activeUsers,
            (⟨p.2.conn, getUsersPayload (st'.activeUsers.map Prod.fst)⟩ : Event) ∈ out.events) :=
  presence_broadcast_full_set ⟨soloReg, []⟩ 2 1 "" "bob" "alice" [] rfl rfl

/-- C6: a `send-message` envelope from registered sender `s` whose data
names a registered receiver `r` (on a different connection) produces
exactly one event: one `receive-message` to the receiver's connection
carrying exactly the original chatId/senderId/text/createdAt values; the
hub state is unchanged and no event goes to the sender's connection. -/
theorem send_message_exactly_once_to_receiver (st : HubState) (cs : Nat)
    (s r : String) (d : List (String × JValue)) (su ru : User)
    (hrid : dataGet d "receiverId" = JValue.str r)
    (_hs : mapGet st.activeUsers s = some su)
    (hr : mapGet st.activeUsers r = some ru)
    (hne : su.conn ≠ ru.conn) :
    handleEnvelope (fun _ => false) cs st s ⟨"send-message", s, d⟩
      = (st, s, ⟨[⟨ru.conn, receiveMessagePayload d⟩], [], []⟩)
    ∧ ∀ e ∈ (handleEnvelope (fun _ => false) cs st s ⟨"send-message", s, d⟩).2.2.events,
        e.conn ≠ su.conn := by
  have h1 : handleEnvelope (fun _ => false) cs st s ⟨"send-message", s, d⟩
      = (st, s, ⟨[⟨ru.conn, receiveMessagePayload d⟩], [], []⟩) := by
    show ((handleSendMessage (fun _ => false) st d).1, s,
          (handleSendMessage (fun _ => false) st d).2) = _
    unfold handleSendMessage
    rw [hrid]
    simp only [JValue.asString]
    unfold sendToUser
    rw [hr]
    simp
  refine ⟨h1, ?_⟩
  rw [h1]
  intro e he
  simp only [List.mem_singleton] at he
  subst he
  exact hne.symm

/-- C6 witness: alice (connection 1) sends to bob (connection 2). -/
theorem send_message_exactly_once_to_receiver_witness :
    handleEnvelope (fun _ => false) 1 ⟨sampleReg, []⟩ "alice"
        ⟨"send-message", "alice", sampleSendData⟩
      = (⟨sampleReg, []⟩, "alice", ⟨[⟨2, receiveMessagePayload sampleSendData⟩], [], []⟩)
    ∧ ∀ e ∈ (handleEnvelope (fun _ => false) 1 ⟨sampleReg, []⟩ "alice"
                ⟨"send-message", "alice", sampleSendData⟩).2.2.events,
        e.conn ≠ 1 :=
  send_message_exactly_once_to_receiver ⟨sampleReg, []⟩ 1 "alice" "bob" sampleSendData
    ⟨"alice", 1⟩ ⟨"bob", 2⟩ rfl rfl rfl (by decide)

/-- C9 counterexample: with "alice" registered and a `comment-added`
envelope whose parentOwner equals its postOwner ("alice"), the hub sends
both `new-comment` and `new-reply` to alice — the claim's "if and only
if parentOwner is ... distinct from postOwner" predicts no `new-reply`
here, so the claim is false at this input. -/
theorem comment_reply_sent_to_same_owner_cex :
    (handleEnvelope (fun _ => false) 2 ⟨[("alice", ⟨"alice", 1⟩)], []⟩ "bob"
        ⟨"comment-added", "bob",
         [("postOwner", .str "alice"), ("comment", .str "c"),
          ("parentOwner", .str "alice")]⟩).2.2.events
      = [⟨1, newCommentPayload (.str "c")⟩, ⟨1, newReplyPayload (.str "c")⟩]
    ∧ dataGet [("postOwner", JValue.str "alice"), ("comment", JValue.str "c"),
               ("parentOwner", JValue.str "alice")] "parentOwner"
        = dataGet [("postOwner", JValue.str "alice"), ("comment", JValue.str "c"),
                   ("parentOwner", JValue.str "alice")] "postOwner" :=
  ⟨rfl, rfl⟩

/-- C9 (amended): for a `comment-added` envelope whose postOwner is a
registered string identity, the postOwner's connection receives a
`new-comment` event carrying the comment payload, and a `new-reply`
event carrying the same payload is additionally delivered to a
registered parentOwner if and only if the parentOwner field is present
as a nonempty string — including when it equals postOwner (the code
never compares the two). -/
theorem comment_added_new_reply_iff_present_nonempty (st : HubState) (cs : Nat)
    (localId sender po : String) (d : List (String × JValue)) (pu : User)
    (hpo : dataGet d "postOwner" = JValue.str po)
    (hpu : mapGet st.activeUsers po = some pu) :
    ((dataGet d "parentOwner").asString = none →
        handleEnvelope (fun _ => false) cs st localId ⟨"comment-added", sender, d⟩
          = (st, localId,
             ⟨[⟨pu.conn, newCommentPayload (dataGet d "comment")⟩], [], []⟩))
    ∧ (dataGet d "parentOwner" = JValue.str "" →
        handleEnvelope (fun _ => false) cs st localId ⟨"comment-added", sender, d⟩
          = (st, localId,
             ⟨[⟨pu.conn, newCommentPayload (dataGet d "comment")⟩], [], []⟩))
    ∧ (∀ q qu, dataGet d "parentOwner" = JValue.str q → q ≠ "" →
        mapGet st.activeUsers q = some qu →
        handleEnvelope (fun _ => false) cs st localId ⟨"comment-added", sender, d⟩
          = (st, localId,
             ⟨[⟨pu.conn, newCommentPayload (dataGet d "comment")⟩,
               ⟨qu.conn, newReplyPayload (dataGet d "comment")⟩], [], []⟩)) := by
  have h1 : sendToUser (fun _ => false) st po (newCommentPayload (dataGet d "comment"))
      = (st, ⟨[⟨pu.conn, newCommentPayload (dataGet d "comment")⟩], [], []⟩) := by
    unfold sendToUser
    rw [hpu]
    simp
  refine ⟨?_, ?_, ?_⟩
  · intro hnone
    show ((handleCommentAdded (fun _ => false) st d).1, localId,
          (handleCommentAdded (fun _ => false) st d).2) = _
    unfold handleCommentAdded
    rw [hpo, hnone]
    simp only [JValue.asString, h1]
  · intro hempty
    show ((handleCommentAdded (fun _ => false) st d).1, localId,
          (handleCommentAdded (fun _ => false) st d).2) = _
    unfold handleCommentAdded
    rw [hpo, hempty]
    simp only [JValue.asString, h1]
    simp
  · intro q qu hq hqne hqu
    have h2 : sendToUser (fun _ => false) st q (newReplyPayload (dataGet d "comment"))
        = (st, ⟨[⟨qu.conn, newReplyPayload (dataGet d "comment")⟩], [], []⟩) := by
      unfold sendToUser
      rw [hqu]
      simp
    have hbne : (q != "") = true := by simp [hqne]
    show ((handleCommentAdded (fun _ => false) st d).1, localId,
          (handleCommentAdded (fun _ => false) st d).2) = _
    unfold handleCommentAdded
    rw [hpo, hq]
    simp only [JValue.asString, h1, hbne, if_true, h2]
    simp [Output.append]

/-- C9 witness: postOwner "alice" (connection 1), parentOwner "bob"
(connection 2), both registered. -/
theorem comment_added_new_reply_iff_present_nonempty_witness :
    ((dataGet sampleCommentData "parentOwner").asString = none →
        handleEnvelope (fun _ => false) 3 ⟨sampleReg, []⟩ "carol"
            ⟨"comment-added", "carol", sampleCommentData⟩
          = (⟨sampleReg, []⟩, "carol",
             ⟨[⟨1, newCommentPayload (dataGet sampleCommentData "comment")⟩], [], []⟩))
    ∧ (dataGet sampleCommentData "parentOwner" = JValue.str "" →
        handleEnvelope (fun _ => false) 3 ⟨sampleReg, []⟩ "carol"
            ⟨"comment-added", "carol", sampleCommentData⟩
          = (⟨sampleReg, []⟩, "carol",
             ⟨[⟨1, newCommentPayload (dataGet sampleCommentData "comment")⟩], [], []⟩))
    ∧ (∀ q qu, dataGet sampleCommentData "parentOwner" = JValue.str q → q ≠ "" →
        mapGet sampleReg q = some qu →
        handleEnvelope (fun _ => false) 3 ⟨sampleReg, []⟩ "carol"
            ⟨"comment-added", "carol", sampleCommentData⟩
          = (⟨sampleReg, []⟩, "carol",
             ⟨[⟨1, newCommentPayload (dataGet sampleCommentData "comment")⟩,
               ⟨qu.conn, newReplyPayload (dataGet sampleCommentData "comment")⟩], [], []⟩)) :=
  comment_added_new_reply_iff_present_nonempty ⟨sampleReg, []⟩ 3 "carol" "carol" "alice"
    sampleCommentData ⟨"alice", 1⟩ rfl rfl

/-- C10: connection 1 registers "alice" (carol already online on
connection 3); connection 2 then sends `new-user-add` for "alice", which
is skipped — but its local `userId` was already set to "alice" before
the existence check.  When connection 2 disconnects, its cleanup deletes
the Registry entry for "alice" — which is live connection 1's entry —
and broadcasts a presence set without "alice" (only carol receives it);
connection 1 is still open (only connection 2 is closed). -/
theorem stale_local_user_id_deletes_live_entry :
    ghostAfterB.1.activeUsers = [("carol", ⟨"carol", 3⟩), ("alice", ⟨"alice", 1⟩)]
    ∧ ghostAfterB.2.1 = "alice"
    ∧ cleanup (fun _ => false) 2 ghostAfterB.1 ghostAfterB.2.1
        = some (⟨[("carol", ⟨"carol", 3⟩)], []⟩,
                ⟨[⟨3, getUsersPayload ["carol"]⟩], [2], []⟩) :=
  ⟨rfl, rfl, rfl⟩

end GoSocial
